import Mathlib

/-!
# AgriGenius — Smart Crop Decision System: verification of spec claims

Shallow embedding of the frontend code (form validation, evaluation pages,
API/service layer) and of the spec-described robustness-evaluation engine,
together with theorems settling the frozen claims about them.

JavaScript numbers are modelled as `ℚ` (only finite values and exact
arithmetic occur in the verified fragments), JS strings as `String`,
`null`/`undefined` as `Option.none`, and thrown errors as `Except.error`.
-/

/-- JS `x || d` for a possibly-absent numeric field (`undefined` and `0` are
falsy), as used for `evaluation.prediction_changes || 0` and
`evaluation.total_runs || 1` in `Noise.jsx`. -/
def jsOrNat (x : Option ℕ) (d : ℕ) : ℕ :=
  match x with
  | none => d
  | some n => if n = 0 then d else n

/-- JS `a || b` for a possibly-absent string field: the empty string and an
absent field are falsy. -/
def jsOrStr (x : Option String) (d : String) : String :=
  match x with
  | none => d
  | some s => if s = "" then d else s

/-- Digit rendering of a non-negative rational to one decimal place:
`⌊x*10 + 1/2⌋` rounds to the nearest tenth with ties upward, as ECMA's
`toFixed` picks the larger candidate on a tie. -/
def toFixed1Render (x : ℚ) : String :=
  toString (⌊x * 10 + 1/2⌋ / 10) ++ "." ++ toString (⌊x * 10 + 1/2⌋ % 10)

/-- ECMAScript `Number.prototype.toFixed(1)` on an exact rational: the sign
is split off first, then the magnitude is rounded to the nearest tenth and
rendered with exactly one digit after the decimal point. -/
def toFixed1 (q : ℚ) : String :=
  if q < 0 then "-" ++ toFixed1Render (-q) else toFixed1Render q

/-- Helper `toPercent` from `Missing.jsx` (lines 13–16): `'N/A'` for `null`/
`undefined`, otherwise `(value * 100).toFixed(1) + '%'`. -/
def toPercent (value : Option ℚ) : String :=
  match value with
  | none => "N/A"
  | some v => toFixed1 (v * 100) ++ "%"

/-- What the RSS metric card on the Noise page shows for a given `rss` field
(`Noise.jsx` line 108: `evaluation.rss ? evaluation.rss.toFixed(4) : 'N/A'`).
The truthiness test sends both an absent `rss` and an `rss` of exactly `0`
to the `'N/A'` branch. -/
inductive RssCell where
  | na : RssCell
  | fixed4 : ℚ → RssCell
deriving DecidableEq

/-- Rendering of the RSS metric card from the `rss` field of the response. -/
def rssCard (rss : Option ℚ) : RssCell :=
  match rss with
  | none => .na
  | some v => if v = 0 then .na else .fixed4 v

/-! ## Prediction form (`PredictForm`, src/unnamed/part_006) -/

/-- The prediction form's state. `N`, `P`, `K` come from `<input
type="number">` controls: the value is either empty / not a number
(`none`) or a numeric value (`some v`); `soilType`, `season` and `city`
are plain strings (the selects use `""` for "nothing chosen"). -/
structure FormData where
  N : Option ℚ
  P : Option ℚ
  K : Option ℚ
  soilType : String
  season : String
  city : String
deriving DecidableEq, Repr

/-- One numeric-field check from `validateForm`:
`!v || isNaN(v) || v < 0` on a number input is "empty/non-numeric or
negative". -/
def npkInvalid (v : Option ℚ) : Bool :=
  match v with
  | none => true
  | some x => x < 0

/-- JS `String.prototype.trim()`: strip whitespace from both ends
(list-based so that it evaluates inside the kernel). -/
def jsTrim (s : String) : String :=
  ⟨((s.data.dropWhile Char.isWhitespace).reverse.dropWhile Char.isWhitespace).reverse⟩

/-- Function `validateForm` from `PredictForm` (src/unnamed/part_006 lines 104–127):
the list of `(field, message)` entries accumulated in `newErrors`, in
source order. The form is accepted (saved and navigated away) exactly when
this list is empty. -/
def validateForm (f : FormData) : List (String × String) :=
  (if npkInvalid f.N then [("N", "Nitrogen must be a valid number")] else []) ++
  (if npkInvalid f.P then [("P", "Phosphorus must be a valid number")] else []) ++
  (if npkInvalid f.K then [("K", "Potassium must be a valid number")] else []) ++
  (if f.soilType = "" then [("soilType", "Soil type is required")] else []) ++
  (if f.season = "" then [("season", "Season is required")] else []) ++
  (if f.city = "" ∨ jsTrim f.city = "" then [("city", "City is required")] else [])

/-! ## Noise page (`Noise.jsx`) -/

/-- The Stability figure of the Noise page (`Noise.jsx` lines 149–152)
before `toFixed(1)`:
`(100 - (evaluation.prediction_changes || 0) / (evaluation.total_runs || 1)) * 100`. -/
def displayedStability (changes runs : Option ℕ) : ℚ :=
  (100 - (jsOrNat changes 0 : ℚ) / (jsOrNat runs 1 : ℚ)) * 100

/-- The stability percentage the spec prescribes: `100 × (1 − changes/runs)`,
i.e. the Recommendation Stability Score as a percentage. -/
def specStability (changes runs : ℕ) : ℚ :=
  100 * (1 - (changes : ℚ) / (runs : ℚ))

/-- One row's Percentage column in the Noise page's distribution table
(`Noise.jsx` lines 200–204):
`(count / (evaluation.total_runs || 1)) * 100`. -/
def distPercent (count : ℕ) (runs : Option ℕ) : ℚ :=
  ((count : ℚ) / (jsOrNat runs 1 : ℚ)) * 100

/-- Error kinds of the robustness-evaluation engine (spec §7). -/
inductive EngineError where
  | invalidParameter : EngineError
  | validationFailure : EngineError
deriving DecidableEq

/-- Result record of the noise evaluation (spec §4.3). -/
structure NoiseResult where
  rss : ℚ
  prediction_changes : ℕ
  total_runs : ℕ
deriving DecidableEq

/-- Modelled from the spec: the Noise Injection Engine (spec §4.3) is not
part of the frontend sources; its perturb-and-classify step is abstracted
as `classifyRun` (the label produced by the `i`-th perturbed run, the
injectable randomness of §9 folded in). The guard is the spec's edge case:
`runs == 0` fails with `InvalidParameterError` instead of dividing by
zero; otherwise `RSS = count(label == baseline) / total_runs` and
`prediction_changes = total_runs - count(label == baseline)`. -/
def noiseEvaluate (classifyRun : ℕ → String) (baseline : String) (runs : ℕ) :
    Except EngineError NoiseResult :=
  if runs = 0 then .error .invalidParameter
  else
    let labels := (List.range runs).map classifyRun
    let kept := labels.count baseline
    .ok { rss := (kept : ℚ) / (runs : ℚ)
          prediction_changes := runs - kept
          total_runs := runs }

/-! ## Missing page (`Missing.jsx`) -/

/-- The Confidence Drop cell of the feature-impact table (`Missing.jsx`
lines 277–289): `N/A` for a `null` drop, a red decrease for a strictly
positive drop, a green increase for a strictly negative drop, and the
literal string `0.0%` for a drop of exactly zero. The percentage text
carried by the arrow branches is `(… * 100).toFixed(1) + '%'`. -/
inductive DropCell where
  | na : DropCell
  | decrease : String → DropCell
  | increase : String → DropCell
  | zeroPct : DropCell
deriving DecidableEq

/-- Rendering of one `confidence_drop` value (`data?.confidence_drop ?? null`
followed by the four-way conditional of `Missing.jsx` lines 277–289). -/
def renderDrop (drop : Option ℚ) : DropCell :=
  match drop with
  | none => .na
  | some d =>
    if d > 0 then .decrease (toFixed1 (d * 100) ++ "%")
    else if d < 0 then .increase (toFixed1 (|d| * 100) ++ "%")
    else .zeroPct

/-! ## Multi-model comparator (spec §4.5) and Agreement page (src/unnamed/part_002) -/

/-- Modelled from the spec: the Multi-Model Comparator (spec §4.5) is not
part of the frontend sources. An evaluation input is the label each of the
four registered models (`rf`, `xgb`, `svm`, `mlp`) predicts for the
vector. -/
structure ModelLabels where
  rf : String
  xgb : String
  svm : String
  mlp : String
deriving DecidableEq

/-- The predictions in the registry's fixed priority order
`rf > xgb > svm > mlp`. -/
def predList (a : ModelLabels) : List String :=
  [a.rf, a.xgb, a.svm, a.mlp]

/-- The `prediction_distribution` lookup: how many of the four models predict
label `l`. -/
def labelCount (a : ModelLabels) (l : String) : ℕ :=
  (predList a).count l

/-- The highest vote count over the four predicted labels. -/
def maxCount (a : ModelLabels) : ℕ :=
  ((predList a).map (labelCount a)).foldr max 0

/-- Modelled from the spec: `predicted_crop` is the label with the highest
count, ties broken by the fixed model-priority order — the first model in
priority order whose label achieves the max count wins (spec §4.5). -/
def predicted_crop (a : ModelLabels) : String :=
  ((predList a).find? (fun l => labelCount a l == maxCount a)).getD a.rf

/-- Modelled from the spec: `agreement_ratio = max(count) / total_models`
with exactly four registered models (spec §4.5). -/
def agreement_ratio (a : ModelLabels) : ℚ :=
  (maxCount a : ℚ) / 4

/-- Modelled from the spec: `all_agree = agreement_ratio == 1.0`
(spec §4.5). -/
def all_agree (a : ModelLabels) : Bool :=
  agreement_ratio a == 1

/-- The Agreement page's per-row consensus mark (src/unnamed/part_002
lines 187–188): `prediction === evaluation.predicted_crop`. -/
def isConsensus (a : ModelLabels) (prediction : String) : Bool :=
  prediction == predicted_crop a

/-! ## Confidence aggregator (spec §4.6) -/

/-- Clipping of the weighted sum to `[0,1]` (spec §4.6). -/
def clip01 (q : ℚ) : ℚ := max 0 (min 1 q)

/-- Modelled from the spec: the bucketing of the confidence score
(spec §4.6): `< 0.5` low, `[0.5, 0.8)` medium, `≥ 0.8` high. -/
def confidence_level (c : ℚ) : String :=
  if c < 1/2 then "low" else if c < 4/5 then "medium" else "high"

/-- Modelled from the spec: the Confidence Aggregator (spec §4.6) is not
part of the frontend sources. `aggregate` combines the top-class
probability, the agreement ratio and the stability score with weights
`0.5 / 0.25 / 0.25`, clips to `[0,1]`, and buckets the result. -/
def aggregate (classProbability agreementRatio stabilityScore : ℚ) : ℚ × String :=
  let c := clip01 (classProbability * (1/2) + agreementRatio * (1/4) + stabilityScore * (1/4))
  (c, confidence_level c)

/-! ## API layer (`apiRequest`, src/unnamed/part_008) -/

/-- A JSON response body, as far as `apiRequest` inspects it: a flat object
whose fields of interest (`detail`, `message`) are strings when present,
together with the remaining payload fields. -/
structure JsonBody where
  detail : Option String
  message : Option String
  rest : List (String × String)
deriving DecidableEq

/-- Outcome of `fetch` + `response.json()`: a settled HTTP response with
its `ok` flag, status code and parsed body (`none` when `response.json()`
throws), or a network failure (the `fetch` promise itself rejects). -/
inductive FetchOutcome where
  | response : Bool → ℕ → Option JsonBody → FetchOutcome
  | networkFailure : FetchOutcome
deriving DecidableEq

/-- The structured error object `apiRequest` rejects with. -/
structure ApiError where
  status : ℕ
  message : String
deriving DecidableEq

/-- The error message of the non-ok branch (src/unnamed/part_008 line 27):
`data.detail || data.message || 'Request failed'` under JS truthiness. -/
def errMessage (data : JsonBody) : String :=
  jsOrStr data.detail (jsOrStr data.message "Request failed")

/-- Function `apiRequest` from src/unnamed/part_008 (lines 3–43), as a function of
the fetch outcome. A non-ok response throws `{status, message, data}`; the
`catch` re-throws it because `error.status` is truthy (nonzero), while a
rejected `fetch` or a throwing `response.json()` reaches the `catch` with
no `status` field and is wrapped as `{status: 500, message: 'Network
error'}`. A status-0 response (unreachable through a CORS fetch) would be
re-wrapped the same way, which the model keeps faithfully. -/
def apiRequest (o : FetchOutcome) : Except ApiError JsonBody :=
  match o with
  | .networkFailure => .error ⟨500, "Network error"⟩
  | .response ok status body? =>
    match body? with
    | none => .error ⟨500, "Network error"⟩
    | some data =>
      if ok then .ok data
      else if status ≠ 0 then .error ⟨status, errMessage data⟩
      else .error ⟨500, "Network error"⟩

/-! ## JSON values, `JSON.stringify` / `JSON.parse`, and localStorage
(src/unnamed/part_007) -/

/-- A JSON-serializable JS value (JSON numbers restricted to integers; the
form stores its fields as strings, so this covers every value the service
layer actually persists). -/
inductive Json where
  | null : Json
  | bool : Bool → Json
  | num : ℤ → Json
  | str : String → Json
  | arr : List Json → Json
  | obj : List (String × Json) → Json

/-- Decimal digits of `n`, most significant first (`fuel`-bounded division
loop). -/
def natReprAux (fuel n : ℕ) : List Char :=
  match fuel with
  | 0 => []
  | fuel + 1 =>
    if n < 10 then [Nat.digitChar n]
    else natReprAux fuel (n / 10) ++ [Nat.digitChar (n % 10)]

/-- Decimal rendering of a natural number. -/
def natRepr (n : ℕ) : String := ⟨natReprAux (n + 1) n⟩

/-- Decimal rendering of an integer, as `JSON.stringify` renders an
integral JS number. -/
def intRepr (n : ℤ) : String :=
  if n < 0 then "-" ++ natRepr n.natAbs else natRepr n.natAbs

/-- The escaping `JSON.stringify` applies inside string literals (quote and
backslash; control characters do not occur in the persisted form data). -/
def escapeStr (s : String) : String :=
  s.data.foldr
    (fun c acc =>
      (if c = '\\' then "\\\\" else if c = '"' then "\\\"" else String.singleton c) ++ acc)
    ""

mutual

/-- JS `JSON.stringify` on a `Json` value (no whitespace, insertion order of
object fields preserved — the JS semantics for the values at hand). -/
def stringify : Json → String
  | .null => "null"
  | .bool true => "true"
  | .bool false => "false"
  | .num n => intRepr n
  | .str s => "\"" ++ escapeStr s ++ "\""
  | .arr xs => "[" ++ stringifyItems xs ++ "]"
  | .obj fs => "\x7b" ++ stringifyFields fs ++ "\x7d"

/-- Comma-separated rendering of array elements. -/
def stringifyItems : List Json → String
  | [] => ""
  | [x] => stringify x
  | x :: xs => stringify x ++ "," ++ stringifyItems xs

/-- Comma-separated rendering of object fields. -/
def stringifyFields : List (String × Json) → String
  | [] => ""
  | [(k, v)] => "\"" ++ escapeStr k ++ "\":" ++ stringify v
  | (k, v) :: fs => "\"" ++ escapeStr k ++ "\":" ++ stringify v ++ "," ++ stringifyFields fs

end

/-- Consume an expected literal character sequence. -/
def parseLit (lit : List Char) (cs : List Char) : Option (List Char) :=
  match lit, cs with
  | [], rest => some rest
  | l :: ls, c :: rest => if c = l then parseLit ls rest else none
  | _ :: _, [] => none

/-- Consume the body of a JSON string literal after the opening quote,
undoing the `\"` and `\\` escapes. -/
def parseStrBody (cs : List Char) (acc : String) : Option (String × List Char) :=
  match cs with
  | [] => none
  | c :: rest =>
    if c = '"' then some (acc, rest)
    else if c = '\\' then
      match rest with
      | [] => none
      | e :: rest2 => parseStrBody rest2 (acc.push e)
    else parseStrBody rest (acc.push c)

/-- Consume a maximal run of leading decimal digits. -/
def parseDigitsAux (cs : List Char) (acc : ℕ) : ℕ × List Char :=
  match cs with
  | [] => (acc, [])
  | c :: rest =>
    if c.isDigit then parseDigitsAux rest (acc * 10 + (c.toNat - 48))
    else (acc, c :: rest)

mutual

/-- Recursive-descent `JSON.parse` for the grammar `stringify` emits
(fuel-bounded; `parseJson` supplies ample fuel). Returns the parsed value
and the unconsumed remainder, or `none` where `JSON.parse` throws. -/
def parseVal (fuel : ℕ) (cs : List Char) : Option (Json × List Char) :=
  match fuel with
  | 0 => none
  | fuel + 1 =>
    match cs with
    | [] => none
    | c :: rest =>
      if c = 'n' then (parseLit [ 'u', 'l', 'l' ] rest).map (fun r => (.null, r))
      else if c = 't' then (parseLit [ 'r', 'u', 'e' ] rest).map (fun r => (.bool true, r))
      else if c = 'f' then (parseLit [ 'a', 'l', 's', 'e' ] rest).map (fun r => (.bool false, r))
      else if c = '"' then (parseStrBody rest "").map (fun p => (.str p.1, p.2))
      else if c = '-' then
        match rest with
        | [] => none
        | d :: _ =>
          if d.isDigit then
            let p := parseDigitsAux rest 0
            some (.num (-(p.1 : ℤ)), p.2)
          else none
      else if c.isDigit then
        let p := parseDigitsAux (c :: rest) 0
        some (.num (p.1 : ℤ), p.2)
      else if c = '[' then
        match rest with
        | ']' :: rest2 => some (.arr [], rest2)
        | _ => (parseItems fuel rest).map (fun p => (.arr p.1, p.2))
      else if c = Char.ofNat 123 then
        match rest with
        | d :: rest2 => if d = Char.ofNat 125 then some (.obj [], rest2)
                        else (parseFields fuel rest).map (fun p => (.obj p.1, p.2))
        | [] => none
      else none

/-- Parse one or more comma-separated array elements and the closing `]`. -/
def parseItems (fuel : ℕ) (cs : List Char) : Option (List Json × List Char) :=
  match fuel with
  | 0 => none
  | fuel + 1 =>
    match parseVal fuel cs with
    | none => none
    | some (j, rest) =>
      match rest with
      | ']' :: rest2 => some ([j], rest2)
      | ',' :: rest2 => (parseItems fuel rest2).map (fun p => (j :: p.1, p.2))
      | _ => none

/-- Parse one or more comma-separated object fields and the closing brace. -/
def parseFields (fuel : ℕ) (cs : List Char) : Option (List (String × Json) × List Char) :=
  match fuel with
  | 0 => none
  | fuel + 1 =>
    match cs with
    | '"' :: rest =>
      match parseStrBody rest "" with
      | none => none
      | some (k, rest2) =>
        match rest2 with
        | ':' :: rest3 =>
          match parseVal fuel rest3 with
          | none => none
          | some (v, rest4) =>
            match rest4 with
            | ',' :: rest5 => (parseFields fuel rest5).map (fun p => ((k, v) :: p.1, p.2))
            | d :: rest5 => if d = Char.ofNat 125 then some ([(k, v)], rest5) else none
            | [] => none
        | _ => none
    | _ => none

end

/-- JS `JSON.parse` on a complete input string: `none` where JS throws a
`SyntaxError`. -/
def parseJson (s : String) : Option Json :=
  match parseVal (s.length + 1) s.data with
  | some (j, []) => some j
  | _ => none

/-- The browser's `localStorage`, keyed string-to-string. -/
def Store := List (String × String)

/-- JS `localStorage.setItem`. -/
def setItem (st : Store) (k v : String) : Store :=
  (k, v) :: (st : List (String × String)).filter (fun p => p.1 != k)

/-- JS `localStorage.getItem`: the stored string, or `none` (JS `null`). -/
def getItem (st : Store) (k : String) : Option String :=
  ((st : List (String × String)).find? (fun p => p.1 == k)).map (fun p => p.2)

/-- JS `localStorage.removeItem`. -/
def removeItem (st : Store) (k : String) : Store :=
  (st : List (String × String)).filter (fun p => p.1 != k)

/-- The empty `localStorage` (no entry ever stored). -/
def emptyStore : Store := []

/-- Function `savePredictionInput` (src/unnamed/part_007 lines 17–19):
`localStorage.setItem('predictionInput', JSON.stringify(formData))`. -/
def savePredictionInput (formData : Json) (st : Store) : Store :=
  setItem st "predictionInput" (stringify formData)

/-- What `getPredictionInput` evaluates to: JS `null`, a parsed value, or a
thrown `SyntaxError` from `JSON.parse`. -/
inductive GetResult where
  | nullResult : GetResult
  | value : Json → GetResult
  | parseFailure : GetResult

/-- Function `getPredictionInput` (src/unnamed/part_007 lines 22–25):
`const data = localStorage.getItem('predictionInput'); return data ?
JSON.parse(data) : null;` — an absent entry and the (falsy) empty string
both yield `null`. -/
def getPredictionInput (st : Store) : GetResult :=
  match getItem st "predictionInput" with
  | none => .nullResult
  | some data =>
    if data = "" then .nullResult
    else
      match parseJson data with
      | some j => .value j
      | none => .parseFailure

/-- Function `clearPredictionInput` (src/unnamed/part_007 lines 28–30). -/
def clearPredictionInput (st : Store) : Store :=
  removeItem st "predictionInput"

/-- The JS value `JSON.parse(JSON.stringify(d))` — the localStorage
round-trip the claim compares against. -/
def jsonRoundTrip (d : Json) : GetResult :=
  match parseJson (stringify d) with
  | some j => .value j
  | none => .parseFailure

/-! ## Theorems -/

/-- A percentage string (ending in `%`) is never the literal `N/A`. Shared
helper. -/
theorem append_percent_ne_na (s : String) : s ++ "%" ≠ "N/A" := by
  intro h
  have h2 := congrArg (fun t => t.data.getLast?) h
  simp [String.data_append, List.getLast?_concat] at h2

/-- Evaluation helper for `toFixed1` on a non-negative rational whose
rounded value is known. -/
theorem toFixed1_eval (q : ℚ) (hq : ¬ q < 0) (n : ℤ) (hn : ⌊q * 10 + 1/2⌋ = n) :
    toFixed1 q = toString (n / 10) ++ "." ++ toString (n % 10) := by
  rw [toFixed1, if_neg hq, toFixed1Render, hn]

/-- C10: `toPercent` returns `N/A` exactly on `null`/`undefined`; on every
numeric value, including `0`, it returns `(v*100).toFixed(1) + '%'`, so
`toPercent 0 = "0.0%"` and `toPercent 1 = "100.0%"`. -/
theorem toPercent_spec :
    (∀ v : Option ℚ, toPercent v = "N/A" ↔ v = none) ∧
    (∀ q : ℚ, toPercent (some q) = toFixed1 (q * 100) ++ "%") ∧
    toPercent (some 0) = "0.0%" ∧ toPercent (some 1) = "100.0%" := by
  refine ⟨fun v => ?_, fun q => rfl, ?_, ?_⟩
  · cases v with
    | none => simp [toPercent]
    | some q =>
      simp only [toPercent]
      constructor
      · intro h; exact absurd h (append_percent_ne_na _)
      · intro h; cases h
  · show toFixed1 ((0 : ℚ) * 100) ++ "%" = "0.0%"
    rw [toFixed1_eval ((0 : ℚ) * 100) (by norm_num) 0 (by norm_num [Int.floor_eq_iff])]
    rfl
  · show toFixed1 ((1 : ℚ) * 100) ++ "%" = "100.0%"
    rw [toFixed1_eval ((1 : ℚ) * 100) (by norm_num) 1000 (by norm_num [Int.floor_eq_iff])]
    rfl

/-- C8: the RSS metric card of the Noise page shows `N/A` both when `rss`
is absent and when `rss` is exactly `0` (the truthiness test conflates the
two), and shows the `toFixed(4)` rendering exactly for nonzero `rss`. -/
theorem rssCard_zero_is_na :
    rssCard (some 0) = RssCell.na ∧
    rssCard (some 0) = rssCard none ∧
    rssCard (some 0) ≠ RssCell.fixed4 0 ∧
    (∀ v : ℚ, rssCard (some v) = RssCell.fixed4 v ↔ v ≠ 0) := by
  refine ⟨by decide, by decide, by decide, fun v => ?_⟩
  by_cases h : v = 0 <;> simp [rssCard, h]

/-- C4: the Missing page preserves `confidence_drop` without clamping: a
strictly positive drop renders as a decrease of `(drop*100).toFixed(1)%`, a
strictly negative drop as an increase of `(|drop|*100).toFixed(1)%` (never
as the zero cell nor as `N/A`), exactly `0` renders as the literal `0.0%`
cell, and an absent drop as `N/A`. -/
theorem renderDrop_preserves_sign (d : ℚ) :
    (0 < d → renderDrop (some d) = DropCell.decrease (toFixed1 (d * 100) ++ "%")) ∧
    (d < 0 → renderDrop (some d) = DropCell.increase (toFixed1 (|d| * 100) ++ "%") ∧
      renderDrop (some d) ≠ DropCell.zeroPct ∧ renderDrop (some d) ≠ DropCell.na) ∧
    renderDrop (some 0) = DropCell.zeroPct ∧ renderDrop none = DropCell.na := by
  refine ⟨fun h => ?_, fun h => ?_, by decide, rfl⟩
  · simp [renderDrop, h]
  · simp [renderDrop, h, not_lt.mpr h.le, asymm h]

/-- Witness for C4 at the concrete drops `3/100` and `-(3/100)`. -/
theorem renderDrop_preserves_sign_witness :
    renderDrop (some (3/100)) = DropCell.decrease (toFixed1 ((3/100) * 100) ++ "%") ∧
    renderDrop (some (-(3/100))) = DropCell.increase (toFixed1 (|(-(3/100) : ℚ)| * 100) ++ "%") ∧
    renderDrop (some (-(3/100))) ≠ DropCell.zeroPct ∧
    renderDrop (some (-(3/100))) ≠ DropCell.na :=
  ⟨(renderDrop_preserves_sign (3/100)).1 (by norm_num),
   ((renderDrop_preserves_sign (-(3/100))).2.1 (by norm_num)).1,
   ((renderDrop_preserves_sign (-(3/100))).2.1 (by norm_num)).2.1,
   ((renderDrop_preserves_sign (-(3/100))).2.1 (by norm_num)).2.2⟩

/-- C2: the Stability figure the Noise page displays is
`(100 - changes/runs) * 100`, not the Recommendation Stability Score
percentage `100 * (1 - changes/runs)`: at `prediction_changes = 0`,
`total_runs = 50` the page shows `10000.0%` where the spec's formula gives
`100%`. -/
theorem displayedStability_is_not_rss_percentage :
    displayedStability (some 0) (some 50) = 10000 ∧
    specStability 0 50 = 100 ∧
    displayedStability (some 0) (some 50) ≠ specStability 0 50 := by
  refine ⟨?_, ?_, ?_⟩ <;> norm_num [displayedStability, specStability, jsOrNat]

/-- The clipped score always lies in `[0,1]`. -/
theorem clip01_mem (q : ℚ) : 0 ≤ clip01 q ∧ clip01 q ≤ 1 :=
  ⟨le_max_left _ _, max_le (by norm_num) (min_le_left _ _)⟩

/-- Level `confidence_level` is `"low"` exactly below `0.5`. -/
theorem confidence_level_low_iff (c : ℚ) : confidence_level c = "low" ↔ c < 1/2 := by
  unfold confidence_level
  split_ifs with h1 h2
  · exact iff_of_true rfl h1
  · exact iff_of_false (by decide) h1
  · exact iff_of_false (by decide) h1

/-- Level `confidence_level` is `"medium"` exactly on `[0.5, 0.8)`. -/
theorem confidence_level_medium_iff (c : ℚ) :
    confidence_level c = "medium" ↔ 1/2 ≤ c ∧ c < 4/5 := by
  unfold confidence_level
  split_ifs with h1 h2
  · exact iff_of_false (by decide) (fun hc => not_le.mpr h1 hc.1)
  · exact iff_of_true rfl ⟨not_lt.mp h1, h2⟩
  · exact iff_of_false (by decide) (fun hc => h2 hc.2)

/-- Level `confidence_level` is `"high"` exactly at or above `0.8`. -/
theorem confidence_level_high_iff (c : ℚ) : confidence_level c = "high" ↔ 4/5 ≤ c := by
  unfold confidence_level
  split_ifs with h1 h2
  · exact iff_of_false (by decide) (not_le.mpr (h1.trans (by norm_num)))
  · exact iff_of_false (by decide) (not_le.mpr h2)
  · exact iff_of_true rfl (not_lt.mp h2)

/-- C6: `aggregate` is the `0.5/0.25/0.25`-weighted blend clipped to
`[0,1]`, bucketed at `0.5` and `0.8`; in particular
`aggregate 1 1 1 = (1, "high")` and `aggregate 0 0 0 = (0, "low")`. -/
theorem aggregate_spec :
    aggregate 1 1 1 = (1, "high") ∧
    aggregate 0 0 0 = (0, "low") ∧
    (∀ p a s : ℚ,
      (aggregate p a s).1 = clip01 (p * (1/2) + a * (1/4) + s * (1/4)) ∧
      0 ≤ (aggregate p a s).1 ∧ (aggregate p a s).1 ≤ 1 ∧
      ((aggregate p a s).2 = "low" ↔ (aggregate p a s).1 < 1/2) ∧
      ((aggregate p a s).2 = "medium" ↔
        1/2 ≤ (aggregate p a s).1 ∧ (aggregate p a s).1 < 4/5) ∧
      ((aggregate p a s).2 = "high" ↔ 4/5 ≤ (aggregate p a s).1)) := by
  refine ⟨?_, ?_, fun p a s => ?_⟩
  · have hc : clip01 (1 * (1/2) + 1 * (1/4) + 1 * (1/4)) = 1 := by
      norm_num [clip01]
    show (_, confidence_level _) = _
    rw [hc]
    have : confidence_level 1 = "high" := (confidence_level_high_iff 1).mpr (by norm_num)
    rw [this]
  · have hc : clip01 (0 * (1/2) + 0 * (1/4) + 0 * (1/4)) = 0 := by
      norm_num [clip01]
    show (_, confidence_level _) = _
    rw [hc]
    have : confidence_level 0 = "low" := (confidence_level_low_iff 0).mpr (by norm_num)
    rw [this]
  · exact ⟨rfl, (clip01_mem _).1, (clip01_mem _).2,
      confidence_level_low_iff _, confidence_level_medium_iff _,
      confidence_level_high_iff _⟩

/-- C5: division by zero is guarded on both sides: the engine rejects
`runs = 0` with `InvalidParameterError` (and only computes RSS for a
positive run count), and the `total_runs || 1` denominator the Noise page
uses for the Stability figure and the distribution percentages is positive
for every response, `total_runs` absent or `0` included. -/
theorem noise_zero_runs_guarded :
    (∀ f b, noiseEvaluate f b 0 = Except.error EngineError.invalidParameter) ∧
    (∀ runs : Option ℕ, (0 : ℚ) < (jsOrNat runs 1 : ℚ)) ∧
    (∀ f b runs, runs ≠ 0 →
      ∃ r : NoiseResult, noiseEvaluate f b runs = Except.ok r ∧ r.total_runs = runs) := by
  refine ⟨fun f b => by simp [noiseEvaluate], fun runs => ?_, fun f b runs h => ?_⟩
  · have : jsOrNat runs 1 ≠ 0 := by
      cases runs with
      | none => simp [jsOrNat]
      | some n => by_cases hn : n = 0 <;> simp [jsOrNat, hn]
    exact_mod_cast Nat.pos_of_ne_zero this
  · exact ⟨_, by rw [noiseEvaluate, if_neg h], rfl⟩

/-- Witness for C5 at `runs = 0` and `runs = 50` with a constant
classifier. -/
theorem noise_zero_runs_guarded_witness :
    noiseEvaluate (fun _ => "rice") "rice" 0 = Except.error EngineError.invalidParameter ∧
    ∃ r : NoiseResult,
      noiseEvaluate (fun _ => "rice") "rice" 50 = Except.ok r ∧ r.total_runs = 50 :=
  ⟨noise_zero_runs_guarded.1 (fun _ => "rice") "rice",
   noise_zero_runs_guarded.2.2 (fun _ => "rice") "rice" 50 (by decide)⟩

/-- The record of C1's counterexample: N above 140, the rest valid. -/
def overRangeRecord : FormData :=
  { N := some 200, P := some 50, K := some 50
    soilType := "Sandy", season := "Kharif", city := "Delhi" }

/-- C1 counterexample: `validateForm` imposes no upper bound, so a record
with `N = 200 > 140` (and recognized soil type and season) produces an
empty error set and is accepted, contradicting the claim that every
record with `N`, `P`, or `K` above 140 is rejected. -/
theorem validateForm_accepts_over_140 :
    (140 : ℚ) < 200 ∧ validateForm overRangeRecord = [] := by
  refine ⟨by norm_num, ?_⟩
  have hN : npkInvalid (some 200) = false := by decide
  have hPK : npkInvalid (some 50) = false := by decide
  simp [validateForm, overRangeRecord, hN, hPK, jsTrim]

/-- Check `npkInvalid` is false exactly on a present, non-negative value. -/
theorem npkInvalid_false_iff (v : Option ℚ) :
    npkInvalid v = false ↔ ∃ x, v = some x ∧ 0 ≤ x := by
  cases v with
  | none => simp [npkInvalid]
  | some x => simp [npkInvalid, not_lt]

/-- C1 amended: `validateForm` returns an empty error set (the record is
accepted) exactly when `N`, `P` and `K` are present and non-negative and
the soil type, season and city fields are non-blank; no upper bound and no
enum-membership check is applied, so values above 140 and unrecognized
non-empty soil types or seasons pass validation. -/
theorem validateForm_empty_iff (f : FormData) :
    validateForm f = [] ↔
      ((∃ x, f.N = some x ∧ 0 ≤ x) ∧ (∃ x, f.P = some x ∧ 0 ≤ x) ∧
       (∃ x, f.K = some x ∧ 0 ≤ x) ∧
       f.soilType ≠ "" ∧ f.season ≠ "" ∧ jsTrim f.city ≠ "") := by
  have hcity : (f.city = "" ∨ jsTrim f.city = "") ↔ jsTrim f.city = "" := by
    constructor
    · rintro (h | h)
      · rw [h]; rfl
      · exact h
    · exact Or.inr
  rw [validateForm]
  simp only [List.append_eq_nil, ite_eq_right_iff, reduceCtorEq, imp_false,
    Bool.not_eq_true, hcity]
  rw [npkInvalid_false_iff, npkInvalid_false_iff, npkInvalid_false_iff]
  tauto

/-- Value `maxCount` unfolded over the four registered models. -/
theorem maxCount_eq (a : ModelLabels) :
    maxCount a = max (labelCount a a.rf) (max (labelCount a a.xgb)
      (max (labelCount a a.svm) (max (labelCount a a.mlp) 0))) := rfl

/-- Every label's vote count is at most the number of models. -/
theorem labelCount_le_four (a : ModelLabels) (l : String) : labelCount a l ≤ 4 := by
  have := List.count_le_length l (predList a)
  simpa [predList] using this

/-- The highest vote count is `4` exactly when every model's label equals
`predicted_crop`. -/
theorem maxCount_eq_four_iff (a : ModelLabels) :
    maxCount a = 4 ↔ ∀ l ∈ predList a, l = predicted_crop a := by
  constructor
  · intro h
    have h1 := labelCount_le_four a a.rf
    have h2 := labelCount_le_four a a.xgb
    have h3 := labelCount_le_four a a.svm
    have h4 := labelCount_le_four a a.mlp
    have h' := h
    rw [maxCount_eq] at h'
    have hc : labelCount a a.rf = 4 ∨ labelCount a a.xgb = 4 ∨
        labelCount a a.svm = 4 ∨ labelCount a a.mlp = 4 := by omega
    have hAllRf : ∀ b ∈ predList a, a.rf = b := by
      obtain hL | hL | hL | hL := hc
      all_goals
        have hall := List.count_eq_length.mp
          (show List.count _ (predList a) = (predList a).length by
            simpa [predList] using hL)
      all_goals
        exact fun b hb => ((hall a.rf (by simp [predList])).symm).trans (hall b hb)
    have hcrf : labelCount a a.rf = 4 := by
      have := List.count_eq_length.mpr hAllRf
      simpa [labelCount, predList] using this
    have hpc : predicted_crop a = a.rf := by
      rw [predicted_crop]
      have hfind : (predList a).find? (fun l => labelCount a l == maxCount a) = some a.rf := by
        simp [predList, List.find?, hcrf, h]
      rw [hfind]
      rfl
    intro l hl
    rw [hpc]
    exact (hAllRf l hl).symm
  · intro h
    have hrf : a.rf = predicted_crop a := h a.rf (by simp [predList])
    have hxgb : a.xgb = predicted_crop a := h a.xgb (by simp [predList])
    have hsvm : a.svm = predicted_crop a := h a.svm (by simp [predList])
    have hmlp : a.mlp = predicted_crop a := h a.mlp (by simp [predList])
    have e2 : a.xgb = a.rf := hxgb.trans hrf.symm
    have e3 : a.svm = a.rf := hsvm.trans hrf.symm
    have e4 : a.mlp = a.rf := hmlp.trans hrf.symm
    have hcount : labelCount a a.rf = 4 := by
      simp [labelCount, predList, e2, e3, e4, List.count_cons]
    rw [maxCount_eq, e2, e3, e4, hcount]
    simp

/-- C3: the comparator's consensus flag is exact: `all_agree` holds iff
`agreement_ratio` is `1.0`, iff every registered model's prediction equals
`predicted_crop`; equivalently, every row of the Agreement page's model
table is marked as agreeing. -/
theorem agreement_consensus_iff (a : ModelLabels) :
    (all_agree a = true ↔ agreement_ratio a = 1) ∧
    ( agreement_ratio a = 1 ↔ ∀ l ∈ predList a, l = predicted_crop a) ∧
    (all_agree a = true ↔ ∀ l ∈ predList a, isConsensus a l = true) := by
  have hbool : all_agree a = true ↔ agreement_ratio a = 1 := by
    rw [all_agree]
    exact beq_iff_eq
  have hfrac : agreement_ratio a = 1 ↔ maxCount a = 4 := by
    rw [ agreement_ratio, div_eq_one_iff_eq (by norm_num : (4:ℚ) ≠ 0)]
    exact_mod_cast Iff.rfl
  refine ⟨hbool, hfrac.trans (maxCount_eq_four_iff a), ?_⟩
  simp only [isConsensus, beq_iff_eq]
  exact hbool.trans (hfrac.trans (maxCount_eq_four_iff a))

/-- The non-ok response of C7's counterexample: `detail` present but empty,
`message` set. -/
def emptyDetailOutcome : FetchOutcome :=
  .response false 400 (some { detail := some "", message := some "boom", rest := [] })

/-- C7 counterexample: for a non-ok response whose body has `detail`
present but equal to the empty string, `apiRequest` rejects with
`data.message`, not with the present `data.detail` — the `||` chain tests
truthiness, not presence. -/
theorem apiRequest_skips_empty_detail :
    apiRequest emptyDetailOutcome = Except.error ⟨400, "boom"⟩ ∧
    some "boom" ≠ (some "" : Option String) := by
  constructor
  · rfl
  · simp

/-- C7 amended: `apiRequest` resolves with the parsed body exactly for ok
responses with a parseable body; a non-ok response with a nonzero HTTP
status rejects with that status and the first *truthy* (present and
non-empty) of `data.detail`, `data.message`, else `'Request failed'`; a
network failure or a JSON-parse failure rejects with `500` /
`'Network error'`. -/
theorem apiRequest_spec :
    (∀ (s : ℕ) (d : JsonBody), apiRequest (.response true s (some d)) = Except.ok d) ∧
    (∀ (o : FetchOutcome) (d : JsonBody), apiRequest o = Except.ok d →
      ∃ s : ℕ, o = .response true s (some d)) ∧
    (∀ (s : ℕ) (d : JsonBody), 0 < s →
      apiRequest (.response false s (some d)) = Except.error ⟨s, errMessage d⟩) ∧
    (∀ (d : JsonBody) (t : String), d.detail = some t → t ≠ "" → errMessage d = t) ∧
    (∀ (d : JsonBody) (m : String), (d.detail = none ∨ d.detail = some "") →
      d.message = some m → m ≠ "" → errMessage d = m) ∧
    (∀ d : JsonBody, (d.detail = none ∨ d.detail = some "") →
      (d.message = none ∨ d.message = some "") → errMessage d = "Request failed") ∧
    (∀ (ok : Bool) (s : ℕ), apiRequest (.response ok s none) = Except.error ⟨500, "Network error"⟩) ∧
    apiRequest .networkFailure = Except.error ⟨500, "Network error"⟩ := by
  refine ⟨fun s d => rfl, ?_, fun s d hs => ?_, ?_, ?_, ?_, fun ok s => by cases ok <;> rfl, rfl⟩
  · intro o d h
    match o with
    | .networkFailure => exact absurd h (by simp [apiRequest])
    | .response ok s none => exact absurd h (by simp [apiRequest])
    | .response true s (some data) =>
      refine ⟨s, ?_⟩
      have : data = d := by simpa [apiRequest] using h
      rw [this]
    | .response false s (some data) =>
      by_cases h0 : s = 0
      · exact absurd h (by simp [apiRequest, h0])
      · exact absurd h (by simp [apiRequest, h0])
  · rw [apiRequest]
    simp [Nat.pos_iff_ne_zero.mp hs]
  · intro d t ht hne
    rw [errMessage, ht, jsOrStr, if_neg hne]
  · intro d m hd hm hne
    rcases hd with hd | hd <;> rw [errMessage, hd, hm] <;> simp [jsOrStr, hne]
  · intro d hd hm
    rcases hd with hd | hd <;> rcases hm with hm | hm <;>
      rw [errMessage, hd, hm] <;> simp [jsOrStr]

/-- Witness for C7 at concrete fetch outcomes: an ok `200` response with a
payload, a non-ok `400` response with a truthy `detail`, one with an empty
`detail` and truthy `message`, and one with neither. -/
theorem apiRequest_spec_witness :
    apiRequest (.response true 200 (some ⟨none, none, [("ok", "1")]⟩)) =
      Except.ok ⟨none, none, [("ok", "1")]⟩ ∧
    (∃ s : ℕ, (FetchOutcome.response true 200 (some ⟨none, none, [("ok", "1")]⟩)) =
      .response true s (some ⟨none, none, [("ok", "1")]⟩)) ∧
    apiRequest (.response false 400 (some ⟨some "bad input", some "boom", []⟩)) =
      Except.error ⟨400, errMessage ⟨some "bad input", some "boom", []⟩⟩ ∧
    errMessage ⟨some "bad input", some "boom", []⟩ = "bad input" ∧
    errMessage ⟨some "", some "boom", []⟩ = "boom" ∧
    errMessage ⟨none, some "", []⟩ = "Request failed" :=
  ⟨apiRequest_spec.1 200 ⟨none, none, [("ok", "1")]⟩,
   apiRequest_spec.2.1 _ ⟨none, none, [("ok", "1")]⟩ rfl,
   apiRequest_spec.2.2.1 400 ⟨some "bad input", some "boom", []⟩ (by norm_num),
   apiRequest_spec.2.2.2.1 ⟨some "bad input", some "boom", []⟩ "bad input" rfl (by simp),
   apiRequest_spec.2.2.2.2.1 ⟨some "", some "boom", []⟩ "boom" (Or.inr rfl) rfl (by simp),
   apiRequest_spec.2.2.2.2.2.1 ⟨none, some "", []⟩ (Or.inl rfl) (Or.inr rfl)⟩

/-- A string whose character list is nonempty is not the empty string. -/
theorem ne_empty_of_data_ne_nil (s : String) (h : s.data ≠ []) : s ≠ "" :=
  fun he => h (by rw [he])

/-- The digit list of a natural number is never empty (for positive fuel). -/
theorem natReprAux_ne_nil (f n : ℕ) : natReprAux (f + 1) n ≠ [] := by
  by_cases h : n < 10 <;> simp [natReprAux, h]

/-- JS `JSON.stringify` never produces the empty string, so the stored value
is always truthy. -/
theorem stringify_ne_empty (d : Json) : stringify d ≠ "" := by
  have hq : ("\"" : String).data = ['"'] := rfl
  have hb : ("[" : String).data = ['['] := rfl
  have hm : ("-" : String).data = ['-'] := rfl
  have hob : ("\x7b" : String).data = [Char.ofNat 123] := rfl
  cases d with
  | null => decide
  | bool b => cases b <;> decide
  | num n =>
    show intRepr n ≠ ""
    rw [intRepr]
    split_ifs with h
    · exact ne_empty_of_data_ne_nil _ (by simp [String.data_append, hm])
    · exact ne_empty_of_data_ne_nil _
        (by simpa [natRepr] using natReprAux_ne_nil n.natAbs n.natAbs)
  | str s =>
    exact ne_empty_of_data_ne_nil _ (by simp [stringify, String.data_append, hq])
  | arr xs =>
    exact ne_empty_of_data_ne_nil _ (by simp [stringify, String.data_append, hb])
  | obj fs =>
    exact ne_empty_of_data_ne_nil _ (by simp [stringify, String.data_append, hob])

/-- JS `localStorage.getItem` after `setItem` of the same key returns exactly
the stored string. -/
theorem getItem_setItem (st : Store) (k v : String) : getItem (setItem st k v) k = some v := by
  simp [getItem, setItem, List.find?]

/-- JS `localStorage.getItem` after `removeItem` of the same key returns
nothing. -/
theorem getItem_removeItem (st : Store) (k : String) : getItem (removeItem st k) k = none := by
  rw [getItem]
  have hfind : List.find? (fun p => p.1 == k) (removeItem st k) = none := by
    rw [List.find?_eq_none]
    intro p hp
    have := (List.mem_filter.mp hp).2
    simpa using this
  rw [hfind]
  rfl

/-- Reading the stored entry when it is present and truthy parses it. -/
theorem getPredictionInput_some (st : Store) (s : String)
    (h : getItem st "predictionInput" = some s) (hne : s ≠ "") :
    getPredictionInput st =
      (match parseJson s with
       | some j => GetResult.value j
       | none => GetResult.parseFailure) := by
  rw [getPredictionInput, h]
  show (if s = "" then GetResult.nullResult
    else match parseJson s with
         | some j => GetResult.value j
         | none => GetResult.parseFailure) = _
  rw [if_neg hne]

/-- Reading when no entry is stored yields JS `null`. -/
theorem getPredictionInput_none (st : Store)
    (h : getItem st "predictionInput" = none) :
    getPredictionInput st = GetResult.nullResult := by
  rw [getPredictionInput, h]

/-- C9: the service layer's localStorage round-trip: reading after
`savePredictionInput(d)` yields exactly `JSON.parse(JSON.stringify(d))`,
and after `clearPredictionInput()` — or on a store that never held the
entry — `getPredictionInput()` is `null`. -/
theorem prediction_input_round_trip :
    (∀ (d : Json) (st : Store),
      getPredictionInput (savePredictionInput d st) = jsonRoundTrip d) ∧
    (∀ st : Store, getPredictionInput (clearPredictionInput st) = GetResult.nullResult) ∧
    getPredictionInput emptyStore = GetResult.nullResult := by
  refine ⟨fun d st => ?_, fun st => ?_, rfl⟩
  · exact (getPredictionInput_some _ (stringify d)
      (by rw [savePredictionInput]; exact getItem_setItem st _ _)
      (stringify_ne_empty d)).trans rfl
  · exact getPredictionInput_none _
      (by rw [clearPredictionInput]; exact getItem_removeItem st _)
